import Mathlib

/-!
Verification of `registry/storage/layerstore.go` from docker/distribution
(mountkin fork): a content-addressable layer store with tombstone-based soft
deletion and resumable uploads, layered over a pluggable storage driver.

The layer store itself (`layerStore.Exists/Fetch/Upload/Resume/Delete/path`,
`newLayerUpload`) is translated directly from the Go source.  Its external
collaborators — the path mapper, the blob store's link resolution, the
storage driver, and the tombstone manager — are not part of the excerpt and
are modelled from the specification at their interface boundary: the path
mapper and driver as abstract outcome functions in an environment record
(with injectable faults), the tombstone manager as a write-once set of
(repository name, digest) pairs held in an explicit store state.
-/

namespace LayerStore

/-- Repository names, digests, tokens and driver paths are opaque strings. -/
abbrev RepoName := String

abbrev Digest := String

abbrev Uuid := String

abbrev Path := String

/-- The error kinds visible in `layerstore.go`:
`pathNotFound` is `storagedriver.PathNotFoundError`, `unknownLayer` is
`distribution.ErrUnknownLayer` (carrying the digest), `layerUploadUnknown` is
`distribution.ErrLayerUploadUnknown`, `parseError` is the error returned by
`time.Parse` on malformed input, and `other` stands for any further driver or
path-mapper error, distinguished by an opaque code. -/
inductive GoError where
  | pathNotFound (path : Path)
  | unknownLayer (dgst : Digest)
  | layerUploadUnknown
  | parseError (s : String)
  | other (code : Nat)
deriving DecidableEq, Repr

/-- Whether an error is the driver's not-found kind
(`storagedriver.PathNotFoundError`), as tested by the `switch err.(type)`
statements in the source. -/
def GoError.isPathNotFound : GoError → Bool
  | .pathNotFound _ => true
  | _ => false

/-- Whether an error is `distribution.ErrUnknownLayer`, as tested by the
`switch err.(type)` statement in `layerStore.Exists`. -/
def GoError.isUnknownLayer : GoError → Bool
  | .unknownLayer _ => true
  | _ => false

/-- An error is driver-level when it is one a storage driver or the blob
store's resolution can produce: the not-found kind or an opaque backend
failure, never one of this core's domain errors.  Modelled from the spec:
the driver contract returns `NotFoundError` or other backend failures. -/
def GoError.isDriverError : GoError → Bool
  | .pathNotFound _ => true
  | .other _ => true
  | _ => false

/-- Content stored at a driver path.  `timestamp sec` is the rendering of a
UTC time in the `time.RFC3339` layout `2006-01-02T15:04:05Z07:00`; since that
layout has no fractional-second component, the rendered text determines (and
is determined by) the time's whole seconds only, which we record directly.
`raw s` is any other byte content (in particular text that does not parse in
the RFC3339 layout). -/
inductive Content where
  | timestamp (sec : Int)
  | raw (s : String)
deriving DecidableEq, Repr

/-- Go's `time.Time` restricted to what `layerstore.go` uses: a UTC instant
with whole seconds and a sub-second nanosecond component. -/
structure GoTime where
  sec : Int
  nsec : Nat
deriving DecidableEq, Repr

/-- `t.Format(time.RFC3339)`: the RFC3339 layout carries no fractional
seconds, so formatting records the whole-second part only.  Modelled from the
Go standard library's fixed layout string `2006-01-02T15:04:05Z07:00`. -/
def timeFormatRFC3339 (t : GoTime) : Content :=
  .timestamp t.sec

/-- `time.Parse(time.RFC3339, s)`: parsing a well-formed RFC3339 string
yields the encoded instant with zero nanoseconds (the layout has no
fractional-second field); any other content fails with a parse error.
Modelled from the Go standard library. -/
def timeParseRFC3339 : Content → Except GoError GoTime
  | .timestamp sec => .ok ⟨sec, 0⟩
  | .raw s => .error (.parseError s)

/-- The mutable store state, following the spec's data model: the driver's
path-addressed content (blob bytes and upload markers), the per-repository
link records (link path ↦ canonical blob path), and the tombstone set keyed
by (repository name, digest). -/
structure StoreState where
  files : List (Path × Content)
  links : List (Path × Path)
  tombstones : List (RepoName × Digest)
deriving DecidableEq, Repr

/-- The environment of external collaborators: the path mapper's outcomes
(pure and deterministic per the spec) and injectable faults for each driver
or collaborator call.  A fault of `none` means the call proceeds against the
store state; `some e` means the backend fails with `e`. -/
structure Env where
  pathLayerLink : RepoName → Digest → Except GoError Path
  pathUploadData : RepoName → Uuid → Except GoError Path
  pathUploadStartedAt : RepoName → Uuid → Except GoError Path
  tombExistsFault : RepoName → Digest → Option GoError
  putTombFault : RepoName → Digest → Option GoError
  resolveFault : Path → Option GoError
  statFault : Path → Option GoError
  getFault : Path → Option GoError
  putFault : Path → Option GoError
  fileWriterFault : Path → Option GoError
  fileReaderFault : Path → Option GoError

/-- Modelled from the spec: the Tombstone Manager's
`tombstoneExists(repoName, digest)` — the tombstone is the existence of a
marker at a path derived from (repoName, digest); "path not found" when
checking existence means not tombstoned; other I/O errors propagate. -/
def tombstoneExists (env : Env) (st : StoreState) (name : RepoName) (dgst : Digest) :
    Except GoError Bool :=
  match env.tombExistsFault name dgst with
  | some e => .error e
  | none => .ok (decide ((name, dgst) ∈ st.tombstones))

/-- Modelled from the spec: the Tombstone Manager's
`putTombstone(repoName, digest)` — persists a marker object keyed by
(repoName, digest); driver I/O errors propagate unchanged. -/
def putTombstone (env : Env) (st : StoreState) (name : RepoName) (dgst : Digest) :
    Except GoError StoreState :=
  match env.putTombFault name dgst with
  | some e => .error e
  | none => .ok { st with tombstones := (name, dgst) :: st.tombstones }

/-- Modelled from the spec: `blobStore.resolve(linkPath)` reads the link path
to obtain the canonical blob path; a missing link surfaces as the driver's
not-found error; other driver errors propagate. -/
def blobStoreResolve (env : Env) (st : StoreState) (linkPath : Path) :
    Except GoError Path :=
  match env.resolveFault linkPath with
  | some e => .error e
  | none =>
    match st.links.lookup linkPath with
    | some blobPath => .ok blobPath
    | none => .error (.pathNotFound linkPath)

/-- Modelled from the spec: the driver's `Stat(path)` — succeeds when content
exists at the path, fails with the not-found error kind otherwise; backend
faults may fail it with any driver error. -/
def driverStat (env : Env) (st : StoreState) (p : Path) : Except GoError Unit :=
  match env.statFault p with
  | some e => .error e
  | none => if (st.files.lookup p).isSome then .ok () else .error (.pathNotFound p)

/-- Modelled from the spec: the driver's `GetContent(path)`. -/
def driverGetContent (env : Env) (st : StoreState) (p : Path) : Except GoError Content :=
  match env.getFault p with
  | some e => .error e
  | none =>
    match st.files.lookup p with
    | some c => .ok c
    | none => .error (.pathNotFound p)

/-- Modelled from the spec: the driver's `PutContent(path, bytes)`, returning
the updated store state on success. -/
def driverPutContent (env : Env) (st : StoreState) (p : Path) (c : Content) :
    Except GoError StoreState :=
  match env.putFault p with
  | some e => .error e
  | none => .ok { st with files := (p, c) :: st.files }

/-- The `layerReader` returned by `Fetch`: a file reader bound to the
resolved blob path, together with the requested digest (an immutable field of
the handle). -/
structure LayerReader where
  path : Path
  digest : Digest
deriving DecidableEq, Repr

/-- The `layerWriter` session built by `newLayerUpload`: bound to the layer
store (identified here by its repository name), the upload token, the start
time, the buffered file writer's data path, and a private tombstone handle
(in the source, `tombstone{pm: defaultPathMapper, driver: ls.repository.driver}`;
`tombUsesDefaultPathMapper` records that the handle is built over the default
path mapper and the store's driver). -/
structure LayerWriter where
  store : RepoName
  uuid : Uuid
  startedAt : GoTime
  writerPath : Path
  tombUsesDefaultPathMapper : Bool
deriving DecidableEq, Repr

/-- `layerStore.path(dgst)`: maps the digest to the layer-link path, resolves
the link through the blob store; a not-found error from resolution becomes
`ErrUnknownLayer` carrying the digest, any other error propagates. -/
def lsPath (env : Env) (st : StoreState) (name : RepoName) (dgst : Digest) :
    Except GoError Path :=
  match env.pathLayerLink name dgst with
  | .error e => .error e
  | .ok layerLinkPath =>
    match blobStoreResolve env st layerLinkPath with
    | .error (.pathNotFound _) => .error (.unknownLayer dgst)
    | .error e => .error e
    | .ok blobPath => .ok blobPath

/-- `layerStore.Exists(digest)`: consults the tombstone manager first
(tombstoned ⇒ `(false, nil)`), then resolves the path (`ErrUnknownLayer` ⇒
`(false, nil)`, other errors propagate), then stats the resolved blob path
(any stat error propagates; success ⇒ `(true, nil)`).  The Go source's second
`if err != nil` block after the stat is unreachable — the first block already
returned — so it has no counterpart here. -/
def lsExists (env : Env) (st : StoreState) (name : RepoName) (dgst : Digest) :
    Bool × Option GoError :=
  match tombstoneExists env st name dgst with
  | .error e => (false, some e)
  | .ok true => (false, none)
  | .ok false =>
    match lsPath env st name dgst with
    | .error e =>
      if e.isUnknownLayer then (false, none) else (false, some e)
    | .ok bp =>
      match driverStat env st bp with
      | .error e => (false, some e)
      | .ok _ => (true, none)

/-- `layerStore.Fetch(dgst)`: calls `Exists` first (errors propagate; a false
result fails with `ErrUnknownLayer` carrying the digest), then resolves the
path again and opens a file reader bound to that path and the digest. -/
def lsFetch (env : Env) (st : StoreState) (name : RepoName) (dgst : Digest) :
    Except GoError LayerReader :=
  match lsExists env st name dgst with
  | (_, some e) => .error e
  | (ex, none) =>
    if !ex then .error (.unknownLayer dgst)
    else
      match lsPath env st name dgst with
      | .error e => .error e
      | .ok bp =>
        match env.fileReaderFault bp with
        | some e => .error e
        | none => .ok { path := bp, digest := dgst }

/-- `layerStore.newLayerUpload(uuid, path, startedAt)`: allocates the
buffered file writer at the data path (failure propagates) and returns the
`layerWriter` session with its private tombstone handle over the default path
mapper and the store's driver. -/
def newLayerUpload (env : Env) (st : StoreState) (name : RepoName) (uuid : Uuid)
    (path : Path) (startedAt : GoTime) : Except GoError (LayerWriter × StoreState) :=
  match env.fileWriterFault path with
  | some e => .error e
  | none =>
    .ok ({ store := name, uuid := uuid, startedAt := startedAt,
           writerPath := path, tombUsesDefaultPathMapper := true }, st)

/-- `layerStore.Upload()`: with the fresh token and the sampled current UTC
time passed explicitly (in the source, `uuid.New()` and `time.Now().UTC()`),
maps the token to the upload data path and the started-at path, writes the
RFC3339-formatted start time at the started-at path, and allocates the
session via `newLayerUpload`. -/
def lsUpload (env : Env) (st : StoreState) (name : RepoName) (uuid : Uuid)
    (startedAt : GoTime) : Except GoError (LayerWriter × StoreState) :=
  match env.pathUploadData name uuid with
  | .error e => .error e
  | .ok path =>
    match env.pathUploadStartedAt name uuid with
    | .error e => .error e
    | .ok startedAtPath =>
      match driverPutContent env st startedAtPath (timeFormatRFC3339 startedAt) with
      | .error e => .error e
      | .ok st' => newLayerUpload env st' name uuid path startedAt

/-- `layerStore.Resume(uuid)`: maps the token to the started-at path, reads
the marker (`PathNotFoundError` becomes `ErrLayerUploadUnknown`, other errors
pass through), parses the RFC3339 timestamp (parse failure propagates),
re-derives the data path and rebuilds the session via `newLayerUpload`. -/
def lsResume (env : Env) (st : StoreState) (name : RepoName) (uuid : Uuid) :
    Except GoError (LayerWriter × StoreState) :=
  match env.pathUploadStartedAt name uuid with
  | .error e => .error e
  | .ok startedAtPath =>
    match driverGetContent env st startedAtPath with
    | .error (.pathNotFound _) => .error .layerUploadUnknown
    | .error e => .error e
    | .ok startedAtBytes =>
      match timeParseRFC3339 startedAtBytes with
      | .error e => .error e
      | .ok startedAt =>
        match env.pathUploadData name uuid with
        | .error e => .error e
        | .ok path => newLayerUpload env st name uuid path startedAt

/-- `layerStore.Delete(dgst)`: consults the tombstone manager first — an
existing tombstone fails with `ErrUnknownLayer` carrying the digest —
otherwise creates the tombstone via `putTombstone`; the updated store state
is returned on success. -/
def lsDelete (env : Env) (st : StoreState) (name : RepoName) (dgst : Digest) :
    Except GoError StoreState :=
  match tombstoneExists env st name dgst with
  | .error e => .error e
  | .ok true => .error (.unknownLayer dgst)
  | .ok false => putTombstone env st name dgst

/-! ## Concrete collaborators for witnesses -/

/-- A fault-free environment: every path-mapper call succeeds with a
distinct path and no collaborator fault is injected. -/
def envW : Env where
  pathLayerLink := fun n d => .ok ("ll-" ++ n ++ "-" ++ d)
  pathUploadData := fun n u => .ok ("ud-" ++ n ++ "-" ++ u)
  pathUploadStartedAt := fun n u => .ok ("us-" ++ n ++ "-" ++ u)
  tombExistsFault := fun _ _ => none
  putTombFault := fun _ _ => none
  resolveFault := fun _ => none
  statFault := fun _ => none
  getFault := fun _ => none
  putFault := fun _ => none
  fileWriterFault := fun _ => none
  fileReaderFault := fun _ => none

/-- An empty store state. -/
def stEmpty : StoreState := ⟨[], [], []⟩

/-- A store state holding one linked blob for repository `"r"` and digest
`"d"`: the layer-link path resolves to the blob path `"bp"`, which holds
content. -/
def stLinked : StoreState :=
  ⟨[("bp", .raw "blobbytes")], [("ll-r-d", "bp")], []⟩

/-- A dangling link for repository `"r"` and digest `"d"`: the layer-link
path resolves to blob path `"bp"`, but no content exists at `"bp"`. -/
def stDangling : StoreState := ⟨[], [("ll-r-d", "bp")], []⟩

/-- The store state after `Upload` in repository `"r"` with token `"u"` at a
time with whole second `0`: the started-at marker is persisted. -/
def stMarker : StoreState := ⟨[("us-r-u", .timestamp 0)], [], []⟩

/-- A store state whose started-at marker for token `"u"` holds text that
does not parse in the RFC3339 layout. -/
def stRaw : StoreState := ⟨[("us-r-u", .raw "garbage")], [], []⟩

/-- The fault-free environment except that every `GetContent` fails with an
opaque backend error. -/
def envGetOther : Env := { envW with getFault := fun _ => some (.other 7) }

/-- The fault-free environment except that every link resolution fails with
an opaque backend error. -/
def envResolveOther : Env := { envW with resolveFault := fun _ => some (.other 3) }

/-- The fault-free environment except that every `Stat` fails with an opaque
backend error. -/
def envStatOther : Env := { envW with statFault := fun _ => some (.other 5) }

/-- The error component of an outcome, discarding any success payload. -/
def exceptErr : Except GoError α → Option GoError
  | .error e => some e
  | .ok _ => none

/-! ## Helper lemmas -/

/-- Unfolding of a successful `Upload`: it succeeds exactly when both path
mappings, the marker write and the writer allocation succeed, and then the
session is bound to the store, token, start time, data path and default
tombstone handle, and the started-at marker is persisted. -/
theorem lsUpload_ok_iff (env : Env) (st : StoreState) (name : RepoName)
    (uuid : Uuid) (S : GoTime) (lw : LayerWriter) (st' : StoreState) :
    lsUpload env st name uuid S = .ok (lw, st') ↔
      ∃ p sp, env.pathUploadData name uuid = .ok p ∧
        env.pathUploadStartedAt name uuid = .ok sp ∧
        env.putFault sp = none ∧ env.fileWriterFault p = none ∧
        lw = ⟨name, uuid, S, p, true⟩ ∧
        st' = { st with files := (sp, timeFormatRFC3339 S) :: st.files } := by
  unfold lsUpload driverPutContent newLayerUpload
  cases h1 : env.pathUploadData name uuid with
  | error e => simp [h1]
  | ok p =>
    dsimp only
    cases h2 : env.pathUploadStartedAt name uuid with
    | error e => simp [h2]
    | ok sp =>
      dsimp only
      cases h3 : env.putFault sp with
      | some e => simp [h3]
      | none =>
        dsimp only
        cases h4 : env.fileWriterFault p with
        | some e => simp [h4]
        | none =>
          dsimp only
          constructor
          · intro h
            rw [Except.ok.injEq, Prod.mk.injEq] at h
            exact ⟨p, sp, rfl, rfl, h3, h4, h.1.symm, h.2.symm⟩
          · rintro ⟨p', sp', hp', hsp', -, -, hl, hs⟩
            cases Except.ok.inj hp'
            cases Except.ok.inj hsp'
            rw [hl, hs]

/-- The error outcome of `Upload` does not depend on the store state at all:
no existence check and no in-flight-upload check is consulted. -/
theorem lsUpload_err_state_irrel (env : Env) (st₁ st₂ : StoreState)
    (name : RepoName) (uuid : Uuid) (S : GoTime) :
    exceptErr (lsUpload env st₁ name uuid S) =
    exceptErr (lsUpload env st₂ name uuid S) := by
  unfold lsUpload driverPutContent newLayerUpload
  cases env.pathUploadData name uuid with
  | error e => rfl
  | ok p =>
    cases env.pathUploadStartedAt name uuid with
    | error e => rfl
    | ok sp =>
      dsimp only
      cases env.putFault sp with
      | some e => rfl
      | none =>
        dsimp only
        cases env.fileWriterFault p with
        | some e => rfl
        | none => rfl

/-- Unfolding of a successful `Resume`: it succeeds exactly when the
started-at path maps, the marker read returns a well-formed RFC3339
timestamp, the data path maps and the writer allocation succeeds, and then
the session's start time is the parsed instant — whole seconds with zero
nanoseconds. -/
theorem lsResume_ok_iff (env : Env) (st : StoreState) (name : RepoName)
    (uuid : Uuid) (lw : LayerWriter) (st' : StoreState) :
    lsResume env st name uuid = .ok (lw, st') ↔
      ∃ sp t p, env.pathUploadStartedAt name uuid = .ok sp ∧
        driverGetContent env st sp = .ok (.timestamp t) ∧
        env.pathUploadData name uuid = .ok p ∧
        env.fileWriterFault p = none ∧
        lw = ⟨name, uuid, ⟨t, 0⟩, p, true⟩ ∧ st' = st := by
  unfold lsResume newLayerUpload
  cases h1 : env.pathUploadStartedAt name uuid with
  | error e => simp [h1]
  | ok sp =>
    dsimp only
    cases h2 : driverGetContent env st sp with
    | error e => cases e <;> simp [h2]
    | ok c =>
      dsimp only
      cases c with
      | raw s => simp [h2, timeParseRFC3339]
      | timestamp t =>
        dsimp only [timeParseRFC3339]
        cases h3 : env.pathUploadData name uuid with
        | error e => simp [h2, h3]
        | ok p =>
          dsimp only
          cases h4 : env.fileWriterFault p with
          | some e => simp [h2, h4]
          | none =>
            dsimp only
            constructor
            · intro h
              rw [Except.ok.injEq, Prod.mk.injEq] at h
              exact ⟨sp, t, p, rfl, h2, rfl, h4, h.1.symm, h.2.symm⟩
            · rintro ⟨sp', t', p', hsp', hget', hp', -, hl, hs⟩
              cases Except.ok.inj hsp'
              have htt : t = t' := by
                have h5 := h2.symm.trans hget'
                injection Except.ok.inj h5
              cases htt
              cases Except.ok.inj hp'
              rw [hl, hs]

/-- Unfolding of a successful `Delete`: it succeeds exactly when the
tombstone check is fault-free and finds no tombstone and the marker write is
fault-free, and then the one state change is the new tombstone entry. -/
theorem lsDelete_ok_iff (env : Env) (st st' : StoreState) (name : RepoName)
    (dgst : Digest) :
    lsDelete env st name dgst = .ok st' ↔
      env.tombExistsFault name dgst = none ∧ (name, dgst) ∉ st.tombstones ∧
      env.putTombFault name dgst = none ∧
      st' = { st with tombstones := (name, dgst) :: st.tombstones } := by
  unfold lsDelete tombstoneExists putTombstone
  cases htf : env.tombExistsFault name dgst with
  | some e => simp
  | none =>
    by_cases hm : (name, dgst) ∈ st.tombstones
    · simp [hm]
    · cases hpf : env.putTombFault name dgst with
      | some e => simp [hm, hpf]
      | none => simp [hm, hpf, eq_comm]

/-- After the tombstone entry is present and the tombstone check is
fault-free, `Exists` answers `(false, nil)` without consulting links. -/
theorem lsExists_of_tombstoned (env : Env) (st : StoreState) (name : RepoName)
    (dgst : Digest) (hf : env.tombExistsFault name dgst = none)
    (hm : (name, dgst) ∈ st.tombstones) :
    lsExists env st name dgst = (false, none) := by
  unfold lsExists tombstoneExists
  simp [hf, hm]

/-- Whenever `Exists` answers `(false, nil)`, `Fetch` fails with
`ErrUnknownLayer` carrying the digest. -/
theorem lsFetch_of_exists_false (env : Env) (st : StoreState) (name : RepoName)
    (dgst : Digest) (h : lsExists env st name dgst = (false, none)) :
    lsFetch env st name dgst = .error (.unknownLayer dgst) := by
  unfold lsFetch
  rw [h]
  simp

/-! ## Claim theorems -/

/-- C1: Tombstone precedence — after `Delete(d)` succeeds in a repository,
`Exists(d)` returns `(false, nil)` and `Fetch(d)` fails with `ErrUnknownLayer`
carrying `d`, regardless of the link and blob state (in particular even if the
underlying link still resolves), because both operations consult the tombstone
manager before any link resolution. -/
theorem tombstone_precedence (env : Env) (st st' : StoreState) (name : RepoName)
    (dgst : Digest) (h : lsDelete env st name dgst = .ok st') :
    lsExists env st' name dgst = (false, none) ∧
    lsFetch env st' name dgst = .error (.unknownLayer dgst) := by
  rw [lsDelete_ok_iff] at h
  obtain ⟨hf, _, _, hst⟩ := h
  have hex : lsExists env st' name dgst = (false, none) := by
    apply lsExists_of_tombstoned env st' name dgst hf
    rw [hst]
    exact List.mem_cons_self _ _
  exact ⟨hex, lsFetch_of_exists_false env st' name dgst hex⟩

/-- C1 witness: in a fault-free environment over a store where digest `"d"`
is linked and resolvable in repository `"r"`, deleting succeeds and then
`Exists` is `(false, nil)` and `Fetch` is `ErrUnknownLayer "d"`. -/
theorem tombstone_precedence_witness :
    lsDelete envW stLinked "r" "d" =
      .ok { stLinked with tombstones := [("r", "d")] } ∧
    (lsExists envW { stLinked with tombstones := [("r", "d")] } "r" "d" =
        (false, none) ∧
      lsFetch envW { stLinked with tombstones := [("r", "d")] } "r" "d" =
        .error (.unknownLayer "d")) :=
  ⟨by rfl,
   tombstone_precedence envW stLinked { stLinked with tombstones := [("r", "d")] }
     "r" "d" (by rfl)⟩

/-- C2: Delete idempotence — for a digest not yet tombstoned (with fault-free
tombstone collaborator calls), the first `Delete` creates the tombstone and
returns no error, and a second `Delete` on the resulting state fails with
`ErrUnknownLayer` carrying the digest, leaving the tombstone write uncalled. -/
theorem delete_idempotence (env : Env) (st : StoreState) (name : RepoName)
    (dgst : Digest) (hf : env.tombExistsFault name dgst = none)
    (hp : env.putTombFault name dgst = none)
    (hm : (name, dgst) ∉ st.tombstones) :
    ∃ st', lsDelete env st name dgst = .ok st' ∧
      st'.tombstones = (name, dgst) :: st.tombstones ∧
      lsDelete env st' name dgst = .error (.unknownLayer dgst) := by
  refine ⟨{ st with tombstones := (name, dgst) :: st.tombstones }, ?_, rfl, ?_⟩
  · rw [lsDelete_ok_iff]
    exact ⟨hf, hm, hp, rfl⟩
  · unfold lsDelete tombstoneExists
    simp [hf]

/-- C3 counterexample: the claim "Resume returns a session whose start time
equals S exactly" fails at a start time with a nonzero sub-second component.
With start time `⟨0 s, 1 ns⟩`, `Upload` persists the RFC3339 marker (whole
seconds only) and `Resume` reconstructs `⟨0 s, 0 ns⟩ ≠ ⟨0 s, 1 ns⟩`. -/
theorem upload_resume_start_time_counterexample :
    lsUpload envW stEmpty "r" "u" ⟨0, 1⟩ =
      .ok (⟨"r", "u", ⟨0, 1⟩, "ud-r-u", true⟩, stMarker) ∧
    lsResume envW stMarker "r" "u" =
      .ok (⟨"r", "u", ⟨0, 0⟩, "ud-r-u", true⟩, stMarker) ∧
    (⟨0, 0⟩ : GoTime) ≠ ⟨0, 1⟩ :=
  ⟨rfl, rfl, by decide⟩

/-- C3 (amended): for every session created by `Upload` with start time `S`,
a subsequent `Resume` of that token returns a session whose start time is `S`
truncated to whole seconds — the RFC3339 marker carries no sub-second part —
so the resumed start time equals `S` exactly iff `S` has zero nanoseconds. -/
theorem upload_resume_start_time (env : Env) (st st1 st2 : StoreState)
    (name : RepoName) (uuid : Uuid) (S : GoTime) (lw lw2 : LayerWriter)
    (hu : lsUpload env st name uuid S = .ok (lw, st1))
    (hr : lsResume env st1 name uuid = .ok (lw2, st2)) :
    lw.startedAt = S ∧ lw2.startedAt = ⟨S.sec, 0⟩ ∧
    (lw2.startedAt = lw.startedAt ↔ S.nsec = 0) := by
  rw [lsUpload_ok_iff] at hu
  obtain ⟨p, sp, hp, hsp, hput, hw, hlw, hst1⟩ := hu
  rw [lsResume_ok_iff] at hr
  obtain ⟨sp', t', p', hsp', hget, hp', hw', hlw2, hst2⟩ := hr
  cases Except.ok.inj (hsp.symm.trans hsp')
  have ht : t' = S.sec := by
    rw [hst1] at hget
    unfold driverGetContent at hget
    cases hgf : env.getFault sp with
    | some e =>
      rw [hgf] at hget
      exact absurd hget (by simp)
    | none =>
      rw [hgf] at hget
      simp [List.lookup, timeFormatRFC3339] at hget
      exact hget.symm
  subst ht
  subst hlw
  subst hlw2
  refine ⟨rfl, rfl, ?_⟩
  cases S with
  | mk s n =>
    dsimp
    constructor
    · intro h
      injection h with _ h'
      exact h'.symm
    · intro h
      rw [h]

/-- C3 witness for the amended claim: at start time `⟨0 s, 1 ns⟩` in the
fault-free environment, the resumed session's start time is the truncation
`⟨0 s, 0 ns⟩`, and it differs from the original since the nanoseconds are
nonzero. -/
theorem upload_resume_start_time_witness :
    lsUpload envW stEmpty "r" "u" ⟨0, 1⟩ =
      .ok (⟨"r", "u", ⟨0, 1⟩, "ud-r-u", true⟩, stMarker) ∧
    lsResume envW stMarker "r" "u" =
      .ok (⟨"r", "u", ⟨0, 0⟩, "ud-r-u", true⟩, stMarker) ∧
    ((⟨"r", "u", ⟨0, 1⟩, "ud-r-u", true⟩ : LayerWriter).startedAt = ⟨0, 1⟩ ∧
      (⟨"r", "u", ⟨0, 0⟩, "ud-r-u", true⟩ : LayerWriter).startedAt = ⟨0, 0⟩ ∧
      ((⟨"r", "u", ⟨0, 0⟩, "ud-r-u", true⟩ : LayerWriter).startedAt =
          (⟨"r", "u", ⟨0, 1⟩, "ud-r-u", true⟩ : LayerWriter).startedAt ↔
        (⟨0, 1⟩ : GoTime).nsec = 0)) :=
  ⟨rfl, rfl,
   upload_resume_start_time envW stEmpty stMarker stMarker "r" "u" ⟨0, 1⟩
     ⟨"r", "u", ⟨0, 1⟩, "ud-r-u", true⟩ ⟨"r", "u", ⟨0, 0⟩, "ud-r-u", true⟩
     rfl rfl⟩

/-- C4: `Upload` consults no existence or in-flight-upload state — its error
outcome is identical over any two store states — and it succeeds exactly when
the two path mappings, the started-at marker write and the writer allocation
succeed, in which case the session is bound to the store, token, start time,
token-derived data path, and a private tombstone handle over the default path
mapper, and the one state change is the persisted started-at marker. -/
theorem upload_unconditional (env : Env) (st : StoreState) (name : RepoName)
    (uuid : Uuid) (S : GoTime) :
    (∀ st₂ : StoreState,
      exceptErr (lsUpload env st name uuid S) =
      exceptErr (lsUpload env st₂ name uuid S)) ∧
    (∀ lw st', lsUpload env st name uuid S = .ok (lw, st') ↔
      ∃ p sp, env.pathUploadData name uuid = .ok p ∧
        env.pathUploadStartedAt name uuid = .ok sp ∧
        env.putFault sp = none ∧ env.fileWriterFault p = none ∧
        lw = ⟨name, uuid, S, p, true⟩ ∧
        st' = { st with files := (sp, timeFormatRFC3339 S) :: st.files }) :=
  ⟨fun st₂ => lsUpload_err_state_irrel env st st₂ name uuid S,
   fun lw st' => lsUpload_ok_iff env st name uuid S lw st'⟩

/-- C4 witness: in the fault-free environment over a store that already holds
a linked blob, `Upload` still proceeds and returns the fully bound session. -/
theorem upload_unconditional_witness :
    lsUpload envW stLinked "r" "u" ⟨5, 0⟩ =
      .ok (⟨"r", "u", ⟨5, 0⟩, "ud-r-u", true⟩,
        { stLinked with files := ("us-r-u", .timestamp 5) :: stLinked.files }) :=
  ((upload_unconditional envW stLinked "r" "u" ⟨5, 0⟩).2 _ _).mpr
    ⟨"ud-r-u", "us-r-u", rfl, rfl, rfl, rfl, rfl, rfl⟩

/-- C2 witness: in the fault-free environment over the empty store, deleting
digest `"d"` twice in repository `"r"` succeeds then fails with
`ErrUnknownLayer "d"`. -/
theorem delete_idempotence_witness :
    envW.tombExistsFault "r" "d" = none ∧ envW.putTombFault "r" "d" = none ∧
    ("r", "d") ∉ stEmpty.tombstones ∧
    ∃ st', lsDelete envW stEmpty "r" "d" = .ok st' ∧
      st'.tombstones = ("r", "d") :: stEmpty.tombstones ∧
      lsDelete envW st' "r" "d" = .error (.unknownLayer "d") :=
  ⟨rfl, rfl, by decide, delete_idempotence envW stEmpty "r" "d" rfl rfl (by decide)⟩

/-- C5: when the started-at marker read fails with the driver's not-found
error, `Resume` fails with the `ErrLayerUploadUnknown` domain error; any
other error from reading the marker passes through unmodified. -/
theorem resume_unknown_upload (env : Env) (st : StoreState) (name : RepoName)
    (uuid : Uuid) (sp : Path)
    (hsp : env.pathUploadStartedAt name uuid = .ok sp) :
    (∀ q, driverGetContent env st sp = .error (.pathNotFound q) →
      lsResume env st name uuid = .error .layerUploadUnknown) ∧
    (∀ e, driverGetContent env st sp = .error e → e.isPathNotFound = false →
      lsResume env st name uuid = .error e) := by
  constructor
  · intro q hq
    unfold lsResume
    rw [hsp]
    dsimp only
    rw [hq]
  · intro e he hne
    unfold lsResume
    rw [hsp]
    dsimp only
    rw [he]
    cases e with
    | pathNotFound p => simp [GoError.isPathNotFound] at hne
    | unknownLayer d => rfl
    | layerUploadUnknown => rfl
    | parseError s => rfl
    | other c => rfl

/-- C5 witness: with no marker present, `Resume` fails with
`ErrLayerUploadUnknown`; with the marker read failing on an opaque backend
error, that error passes through. -/
theorem resume_unknown_upload_witness :
    envW.pathUploadStartedAt "r" "u" = .ok "us-r-u" ∧
    lsResume envW stEmpty "r" "u" = .error .layerUploadUnknown ∧
    lsResume envGetOther stEmpty "r" "u" = .error (.other 7) :=
  ⟨rfl,
   (resume_unknown_upload envW stEmpty "r" "u" "us-r-u" rfl).1 "us-r-u" rfl,
   (resume_unknown_upload envGetOther stEmpty "r" "u" "us-r-u" rfl).2
     (.other 7) rfl rfl⟩

/-- C8: when the persisted started-at content of an existing token does not
parse in the RFC3339 layout, `Resume` fails with the parse error itself —
never with a defaulted start time. -/
theorem resume_malformed_timestamp (env : Env) (st : StoreState)
    (name : RepoName) (uuid : Uuid) (sp : Path) (c : Content) (e : GoError)
    (hsp : env.pathUploadStartedAt name uuid = .ok sp)
    (hg : driverGetContent env st sp = .ok c)
    (hp : timeParseRFC3339 c = .error e) :
    lsResume env st name uuid = .error e := by
  unfold lsResume
  rw [hsp]
  dsimp only
  rw [hg]
  dsimp only
  rw [hp]

/-- C8 witness: a marker holding the text `"garbage"` makes `Resume` fail
with the parse error carrying that text. -/
theorem resume_malformed_timestamp_witness :
    envW.pathUploadStartedAt "r" "u" = .ok "us-r-u" ∧
    driverGetContent envW stRaw "us-r-u" = .ok (.raw "garbage") ∧
    timeParseRFC3339 (.raw "garbage") = .error (.parseError "garbage") ∧
    lsResume envW stRaw "r" "u" = .error (.parseError "garbage") :=
  ⟨rfl, rfl, rfl,
   resume_malformed_timestamp envW stRaw "r" "u" "us-r-u" (.raw "garbage")
     (.parseError "garbage") rfl rfl rfl⟩

/-- C6: for a digest that is not tombstoned, a link resolution failing with
the driver's not-found error yields `(false, nil)`; any other resolution
error (a driver error that is not not-found) and any other stat error is
propagated; a successful stat of the resolved path yields `(true, nil)`. -/
theorem exists_link_indirection (env : Env) (st : StoreState)
    (name : RepoName) (dgst : Digest) (lp : Path)
    (hf : env.tombExistsFault name dgst = none)
    (hm : (name, dgst) ∉ st.tombstones)
    (hll : env.pathLayerLink name dgst = .ok lp) :
    (∀ q, blobStoreResolve env st lp = .error (.pathNotFound q) →
      lsExists env st name dgst = (false, none)) ∧
    (∀ e, blobStoreResolve env st lp = .error e → e.isDriverError = true →
      e.isPathNotFound = false → lsExists env st name dgst = (false, some e)) ∧
    (∀ bp e, blobStoreResolve env st lp = .ok bp →
      driverStat env st bp = .error e → e.isPathNotFound = false →
      lsExists env st name dgst = (false, some e)) ∧
    (∀ bp, blobStoreResolve env st lp = .ok bp →
      driverStat env st bp = .ok () → lsExists env st name dgst = (true, none)) := by
  refine ⟨?_, ?_, ?_, ?_⟩
  · intro q hq
    unfold lsExists tombstoneExists lsPath
    rw [hf]
    dsimp only
    rw [decide_eq_false hm]
    dsimp only
    rw [hll]
    dsimp only
    rw [hq]
    rfl
  · intro e he hdrv hne
    unfold lsExists tombstoneExists lsPath
    rw [hf]
    dsimp only
    rw [decide_eq_false hm]
    dsimp only
    rw [hll]
    dsimp only
    rw [he]
    cases e with
    | pathNotFound p => simp [GoError.isPathNotFound] at hne
    | unknownLayer d => simp [GoError.isDriverError] at hdrv
    | layerUploadUnknown => simp [GoError.isDriverError] at hdrv
    | parseError s => simp [GoError.isDriverError] at hdrv
    | other c => rfl
  · intro bp e hres hstat hne
    unfold lsExists tombstoneExists lsPath
    rw [hf]
    dsimp only
    rw [decide_eq_false hm]
    dsimp only
    rw [hll]
    dsimp only
    rw [hres]
    dsimp only
    rw [hstat]
  · intro bp hres hstat
    unfold lsExists tombstoneExists lsPath
    rw [hf]
    dsimp only
    rw [decide_eq_false hm]
    dsimp only
    rw [hll]
    dsimp only
    rw [hres]
    dsimp only
    rw [hstat]

/-- C6 witness: the four behaviors at concrete inputs — missing link gives
`(false, nil)`, an opaque resolution fault propagates, an opaque stat fault
propagates, and a resolvable linked blob gives `(true, nil)`. -/
theorem exists_link_indirection_witness :
    lsExists envW stEmpty "r" "d" = (false, none) ∧
    lsExists envResolveOther stEmpty "r" "d" = (false, some (.other 3)) ∧
    lsExists envStatOther stLinked "r" "d" = (false, some (.other 5)) ∧
    lsExists envW stLinked "r" "d" = (true, none) :=
  ⟨(exists_link_indirection envW stEmpty "r" "d" "ll-r-d" rfl (by decide)
      rfl).1 "ll-r-d" rfl,
   (exists_link_indirection envResolveOther stEmpty "r" "d" "ll-r-d" rfl
      (by decide) rfl).2.1 (.other 3) rfl rfl rfl,
   (exists_link_indirection envStatOther stLinked "r" "d" "ll-r-d" rfl
      (by decide) rfl).2.2.1 "bp" (.other 5) rfl rfl rfl,
   (exists_link_indirection envW stLinked "r" "d" "ll-r-d" rfl (by decide)
      rfl).2.2.2 "bp" rfl rfl⟩

/-- C7: `Fetch` calls `Exists` first — a `(false, nil)` answer makes it fail
with `ErrUnknownLayer` carrying the digest — and every successful `Fetch`
returns a reader whose digest field is the requested digest. -/
theorem fetch_digest_binding (env : Env) (st : StoreState) (name : RepoName)
    (dgst : Digest) :
    (lsExists env st name dgst = (false, none) →
      lsFetch env st name dgst = .error (.unknownLayer dgst)) ∧
    (∀ r, lsFetch env st name dgst = .ok r → r.digest = dgst) := by
  constructor
  · exact lsFetch_of_exists_false env st name dgst
  · intro r h
    unfold lsFetch at h
    cases hex : lsExists env st name dgst with
    | mk ex err =>
      rw [hex] at h
      cases err with
      | some e => exact absurd h (by simp)
      | none =>
        cases ex with
        | false => exact absurd h (by simp)
        | true =>
          dsimp only at h
          cases hp : lsPath env st name dgst with
          | error e =>
            rw [hp] at h
            exact absurd h (by simp)
          | ok bp =>
            rw [hp] at h
            dsimp only at h
            cases hfr : env.fileReaderFault bp with
            | some e =>
              rw [hfr] at h
              exact absurd h (by simp)
            | none =>
              rw [hfr] at h
              cases Except.ok.inj h
              rfl

/-- C7 witness: on the empty store `Fetch` fails with `ErrUnknownLayer "d"`;
on the linked store it succeeds with a reader whose digest is `"d"`. -/
theorem fetch_digest_binding_witness :
    lsFetch envW stEmpty "r" "d" = .error (.unknownLayer "d") ∧
    lsFetch envW stLinked "r" "d" = .ok ⟨"bp", "d"⟩ ∧
    (⟨"bp", "d"⟩ : LayerReader).digest = "d" :=
  ⟨(fetch_digest_binding envW stEmpty "r" "d").1 rfl,
   rfl,
   (fetch_digest_binding envW stLinked "r" "d").2 ⟨"bp", "d"⟩ rfl⟩

/-- C9: the only state mutation of a successful `Delete` is the new tombstone
entry for (repository name, digest): the driver's stored content (blob bytes
and markers) and the link records are unchanged. -/
theorem delete_frame (env : Env) (st st' : StoreState) (name : RepoName)
    (dgst : Digest) (h : lsDelete env st name dgst = .ok st') :
    st'.files = st.files ∧ st'.links = st.links ∧
    st'.tombstones = (name, dgst) :: st.tombstones := by
  rw [lsDelete_ok_iff] at h
  obtain ⟨-, -, -, hst⟩ := h
  rw [hst]
  exact ⟨rfl, rfl, rfl⟩

/-- C9 witness: deleting the linked digest `"d"` leaves the blob content and
the link record intact and adds exactly the tombstone entry. -/
theorem delete_frame_witness :
    lsDelete envW stLinked "r" "d" =
      .ok { stLinked with tombstones := [("r", "d")] } ∧
    (({ stLinked with tombstones := [("r", "d")] } : StoreState).files =
        stLinked.files ∧
      ({ stLinked with tombstones := [("r", "d")] } : StoreState).links =
        stLinked.links ∧
      ({ stLinked with tombstones := [("r", "d")] } : StoreState).tombstones =
        ("r", "d") :: stLinked.tombstones) :=
  ⟨by rfl,
   delete_frame envW stLinked { stLinked with tombstones := [("r", "d")] }
     "r" "d" (by rfl)⟩

/-- C10: dangling-link edge case — once the link has resolved to a blob path,
any stat failure on that path, the driver's not-found error included, is
returned as `(false, that error)`: the not-found-to-`(false, nil)`
translation applies only at link resolution, never after the stat. -/
theorem exists_dangling_link (env : Env) (st : StoreState) (name : RepoName)
    (dgst : Digest) (lp bp : Path) (e : GoError)
    (hf : env.tombExistsFault name dgst = none)
    (hm : (name, dgst) ∉ st.tombstones)
    (hll : env.pathLayerLink name dgst = .ok lp)
    (hres : blobStoreResolve env st lp = .ok bp)
    (hstat : driverStat env st bp = .error e) :
    lsExists env st name dgst = (false, some e) := by
  unfold lsExists tombstoneExists lsPath
  rw [hf]
  dsimp only
  rw [decide_eq_false hm]
  dsimp only
  rw [hll]
  dsimp only
  rw [hres]
  dsimp only
  rw [hstat]

/-- C10 witness: a link for `"d"` resolving to blob path `"bp"` with no
content at `"bp"` makes `Exists` return the not-found stat error itself, not
`(false, nil)`. -/
theorem exists_dangling_link_witness :
    blobStoreResolve envW stDangling "ll-r-d" = .ok "bp" ∧
    driverStat envW stDangling "bp" = .error (.pathNotFound "bp") ∧
    lsExists envW stDangling "r" "d" = (false, some (.pathNotFound "bp")) :=
  ⟨rfl, rfl,
   exists_dangling_link envW stDangling "r" "d" "ll-r-d" "bp"
     (.pathNotFound "bp") rfl (by decide) rfl rfl rfl⟩

end LayerStore
